import Mathlib

/-! Login and password-reset form handlers.

A shallow embedding of `login.js` and `forgot-password.js`.

* JavaScript strings are sequences of UTF-16 code units; a code unit is a
  natural number and a string is a list of them, so `value.length` is the
  length of the list and `===` on strings is equality of lists.
* The DOM nodes the scripts touch become fields of a page record; an event
  handler is a function from page to page.
* `await` splits the submit handler in two: the synchronous part, which
  queues the simulated remote call, and the continuation that runs when the
  call settles.
-/

namespace Tut23

/-! ## JavaScript strings -/

/-- A JavaScript string: its UTF-16 code units. -/
abbrev JSString := List Nat

/-- The code units of an ASCII literal of the source. -/
def js (s : String) : JSString := s.toList.map Char.toNat

/-- The code units matched by `\s` in a regular expression and stripped by
`String.prototype.trim`: ECMAScript WhiteSpace and LineTerminator. -/
def isWhiteSpace (c : Nat) : Bool :=
  c == 0x09 || c == 0x0A || c == 0x0B || c == 0x0C || c == 0x0D || c == 0x20 ||
  c == 0xA0 || c == 0x1680 || (0x2000 ≤ c && c ≤ 0x200A) || c == 0x2028 ||
  c == 0x2029 || c == 0x202F || c == 0x205F || c == 0x3000 || c == 0xFEFF

/-- The method `String.prototype.trim`: white space removed at both ends. -/
def jsTrim (s : JSString) : JSString :=
  ((s.dropWhile isWhiteSpace).reverse.dropWhile isWhiteSpace).reverse

/-- Truthiness of a value that is `null` or a string: `null` and the empty
string are falsy. -/
def truthy : Option JSString → Bool
  | none => false
  | some [] => false
  | some (_ :: _) => true

/-! ## The regular expression `/^[^\s@]+@[^\s@]+\.[^\s@]+$/` -/

/-- The pieces the email pattern is built from: a literal code unit, and a
character class under `+`. -/
inductive RegexItem where
  | char (c : Nat)
  | classPlus (cls : Nat → Bool)

/-- The class `[^\s@]`. -/
def notSpaceNorAt (c : Nat) : Bool := !(isWhiteSpace c || c == 0x40)

/-- A backtracking matcher for a sequence of items between `^` and `$`: the
items must consume the whole input. A class under `+` takes one code unit and
then first tries to take more (greedy), then to go on with the rest. -/
def matchHere : JSString → List RegexItem → Bool
  | [], [] => true
  | [], _ :: _ => false
  | _ :: _, [] => false
  | x :: s, .char c :: rest => x == c && matchHere s rest
  | x :: s, .classPlus p :: rest =>
      p x && (matchHere s (.classPlus p :: rest) || matchHere s rest)

/-- The items of `/^[^\s@]+@[^\s@]+\.[^\s@]+$/`. -/
def emailRegex : List RegexItem :=
  [.classPlus notSpaceNorAt, .char 0x40, .classPlus notSpaceNorAt, .char 0x2E,
   .classPlus notSpaceNorAt]

/-- The call `emailRegex.test(value)`. -/
def emailRegexTest (value : JSString) : Bool := matchHere value emailRegex

/-! ## Validators -/

namespace Login

/-- The function `validators.email` of `login.js`. -/
def validators_email (value : JSString) : Option JSString :=
  if !truthy (some (jsTrim value)) then
    some (js "Email is required")
  else if !emailRegexTest value then
    some (js "Please enter a valid email address")
  else
    none

/-- The function `validators.password` of `login.js`. -/
def validators_password (value : JSString) : Option JSString :=
  if !truthy (some value) then
    some (js "Password is required")
  else if value.length < 6 then
    some (js "Password must be at least 6 characters")
  else
    none

end Login

namespace Reset

/-- The function `validators.email` of `forgot-password.js`. -/
def validators_email (value : JSString) : Option JSString :=
  if !truthy (some (jsTrim value)) then
    some (js "Email is required")
  else if !emailRegexTest value then
    some (js "Please enter a valid email address")
  else
    none

end Reset

/-! ## The pattern as the specification words it -/

/-- One or more code units, none of them white space or `@`. -/
def NonBlankRun (a : JSString) : Prop :=
  a ≠ [] ∧ ∀ x ∈ a, isWhiteSpace x = false ∧ x ≠ 0x40

/-- The whole string is a run, `@`, a run, `.`, a run. -/
def MatchesEmailPattern (s : JSString) : Prop :=
  ∃ a b c, NonBlankRun a ∧ NonBlankRun b ∧ NonBlankRun c ∧
    s = a ++ [0x40] ++ b ++ [0x2E] ++ c

/-! ## Language of an item sequence -/

/-- The strings an item sequence matches, between `^` and `$`. -/
def Lang : List RegexItem → JSString → Prop
  | [], s => s = []
  | .char c :: rest, s => ∃ t, s = c :: t ∧ Lang rest t
  | .classPlus p :: rest, s =>
      ∃ a t, a ≠ [] ∧ (∀ x ∈ a, p x = true) ∧ s = a ++ t ∧ Lang rest t

/-! ## Fields -/

/-- An input element with the element that shows its error.

`lastRun` and `clearedSince` are history variables: no statement of the
scripts reads them. `lastRun` is the result of the last validator run on the
field (`none` before the first run); `clearedSince` says that, since that run,
an input event on the field or a completed reset has gone by. -/
structure Field where
  /-- The property `value` of the input. -/
  value : JSString
  /-- Whether the input carries the class `invalid`. -/
  invalid : Bool
  /-- The property `textContent` of the error element. -/
  errorText : JSString
  /-- The attribute `aria-invalid` of the input, when set. -/
  ariaInvalid : Option JSString
  lastRun : Option (Option JSString)
  clearedSince : Bool
  deriving DecidableEq

/-- The function `showError` (the same in both scripts). -/
def showError (inputElement : Field) (message : JSString) : Field :=
  { inputElement with
    invalid := true, errorText := message, ariaInvalid := some (js "true") }

/-- The function `clearError` (the same in both scripts). -/
def clearError (inputElement : Field) : Field :=
  { inputElement with
    invalid := false, errorText := [], ariaInvalid := some (js "false") }

/-- The function `validateField` (the same in both scripts). The validator's
result is also written to the history variables. -/
def validateField (inputElement : Field) (validator : JSString → Option JSString) :
    Field × Bool :=
  let error := validator inputElement.value
  let inputElement := { inputElement with lastRun := some error, clearedSince := false }
  if truthy error then
    (showError inputElement (error.getD []), false)
  else
    (clearError inputElement, true)

/-- An input event has reached the field: only the history flag changes. -/
def Field.noteCleared (f : Field) : Field := { f with clearedSince := true }

/-- The last validator run on the field returned a non-empty message. -/
def Field.lastRunFailed (f : Field) : Bool :=
  match f.lastRun with
  | some r => truthy r
  | none => false

/-- A field as the markup delivers it: no marker, never validated. -/
def freshField (f : Field) : Bool :=
  !f.invalid && f.lastRun == none && !f.clearedSince

/-! ## The key-value store behind `localStorage` -/

/-- The store: the pairs of key and value it holds. -/
abbrev Storage := List (JSString × JSString)

/-- The method `localStorage.getItem`: `null` when the key is absent. -/
def getItem (st : Storage) (key : JSString) : Option JSString :=
  (st.find? (fun kv => kv.1 == key)).map Prod.snd

/-- The method `localStorage.removeItem`. -/
def removeItem (st : Storage) (key : JSString) : Storage :=
  st.filter (fun kv => !(kv.1 == key))

/-- The method `localStorage.setItem`. -/
def setItem (st : Storage) (key value : JSString) : Storage :=
  (key, value) :: removeItem st key

/-! ## The login page -/

namespace Login

/-- The arguments of one call of `simulateLogin`. -/
structure LoginCall where
  email : JSString
  password : JSString
  rememberMe : Bool
  deriving DecidableEq

/-- The object `simulateLogin` resolves with: `success` and `user.email`. -/
structure LoginResponse where
  success : Bool
  userEmail : JSString
  deriving DecidableEq

/-- The state of the login page: the DOM nodes `login.js` reads or writes, its
two variables, the store, and the calls and timers it has started. -/
structure LoginPage where
  emailInput : Field
  passwordInput : Field
  /-- The variable `passwordVisible`; the type, label and colour set by the
  toggle handler are functions of it. -/
  passwordVisible : Bool
  /-- The property `checked` of `rememberMeCheckbox`. -/
  rememberMeChecked : Bool
  /-- Whether `successAlert.style.display` is `flex` rather than `none`. -/
  successAlertShown : Bool
  /-- The text inside the success alert; it comes from the markup. -/
  successAlertText : JSString
  /-- Whether `errorAlert.style.display` is `flex` rather than `none`. -/
  errorAlertShown : Bool
  errorAlertText : JSString
  /-- The property `disabled` of `submitBtn`. -/
  submitBtnDisabled : Bool
  /-- Whether `submitBtn` carries the class `loading`. -/
  submitBtnLoading : Bool
  isSubmitting : Bool
  localStorage : Storage
  /-- The calls of `simulateLogin` that have not settled yet, oldest first. -/
  pendingCalls : List LoginCall
  /-- The redirect timers that have not fired yet. -/
  redirectTimers : Nat
  deriving DecidableEq

/-- The function `hideAlerts` of `login.js`. -/
def hideAlerts (s : LoginPage) : LoginPage :=
  { s with successAlertShown := false, errorAlertShown := false }

/-- The function `showAlert` of `login.js`. -/
def showAlert (type message : JSString) (s : LoginPage) : LoginPage :=
  let s := hideAlerts s
  if type = js "success" then
    { s with successAlertShown := true }
  else if type = js "error" then
    { s with errorAlertText := message, errorAlertShown := true }
  else
    s

/-- The function `validateForm` of `login.js`. -/
def validateForm (s : LoginPage) : LoginPage × Bool :=
  let isEmailValid := validateField s.emailInput validators_email
  let isPasswordValid := validateField s.passwordInput validators_password
  ({ s with emailInput := isEmailValid.1, passwordInput := isPasswordValid.1 },
    isEmailValid.2 && isPasswordValid.2)

/-- The click handler of `togglePasswordBtn`. -/
def onTogglePassword (s : LoginPage) : LoginPage :=
  { s with passwordVisible := !s.passwordVisible }

/-- The blur handler of `emailInput`. -/
def onEmailBlur (s : LoginPage) : LoginPage :=
  if truthy (some s.emailInput.value) then
    { s with emailInput := (validateField s.emailInput validators_email).1 }
  else
    s

/-- The blur handler of `passwordInput`. -/
def onPasswordBlur (s : LoginPage) : LoginPage :=
  if truthy (some s.passwordInput.value) then
    { s with passwordInput := (validateField s.passwordInput validators_password).1 }
  else
    s

/-- The input handler of `emailInput`. -/
def onEmailInput (s : LoginPage) : LoginPage :=
  let s := { s with emailInput := s.emailInput.noteCleared }
  let s := if s.emailInput.invalid then { s with emailInput := clearError s.emailInput } else s
  hideAlerts s

/-- The input handler of `passwordInput`. -/
def onPasswordInput (s : LoginPage) : LoginPage :=
  let s := { s with passwordInput := s.passwordInput.noteCleared }
  let s :=
    if s.passwordInput.invalid then { s with passwordInput := clearError s.passwordInput } else s
  hideAlerts s

/-- The function `simulateLogin`: how its promise settles once the delay is
over, `ok` for resolved and `error` with the message of the `Error` for
rejected. -/
def simulateLogin (email password : JSString) (_rememberMe : Bool) :
    Except JSString LoginResponse :=
  let validEmail := js "demo@example.com"
  let validPassword := js "password123"
  if email = validEmail ∧ password = validPassword then
    .ok { success := true, userEmail := email }
  else
    .error (js "Invalid email or password.")

/-- The submit handler of `loginForm` up to its `await`. -/
def onSubmit (s : LoginPage) : LoginPage :=
  if s.isSubmitting then
    s
  else
    let s := hideAlerts s
    let v := validateForm s
    if !v.2 then
      v.1
    else
      let s := v.1
      let email := jsTrim s.emailInput.value
      let password := s.passwordInput.value
      let rememberMe := s.rememberMeChecked
      { s with
        isSubmitting := true, submitBtnDisabled := true, submitBtnLoading := true,
        pendingCalls := s.pendingCalls ++ [⟨email, password, rememberMe⟩] }

/-- The submit handler of `loginForm` after its `await`: the rest of the `try`
block when the call resolved, the `catch` block when it rejected. -/
def afterAwait (call : LoginCall) (r : Except JSString LoginResponse) (s : LoginPage) :
    LoginPage :=
  match r with
  | .ok _ =>
    let s := showAlert (js "success") (js "Login successful! Redirecting...") s
    let s :=
      if call.rememberMe then
        { s with localStorage := setItem s.localStorage (js "rememberedEmail") call.email }
      else
        { s with localStorage := removeItem s.localStorage (js "rememberedEmail") }
    { s with redirectTimers := s.redirectTimers + 1 }
  | .error message =>
    let s := showAlert (js "error") message s
    { s with isSubmitting := false, submitBtnDisabled := false, submitBtnLoading := false }

/-- The oldest pending call of `simulateLogin` settles and the submit handler
that awaits it goes on. -/
def onCallSettled (s : LoginPage) : LoginPage :=
  match s.pendingCalls with
  | [] => s
  | call :: rest =>
    afterAwait call (simulateLogin call.email call.password call.rememberMe)
      { s with pendingCalls := rest }

/-- A redirect timer fires: its callback only writes to the console. -/
def onRedirectTimer (s : LoginPage) : LoginPage :=
  { s with redirectTimers := s.redirectTimers - 1 }

/-- The `DOMContentLoaded` handler. -/
def onDOMContentLoaded (s : LoginPage) : LoginPage :=
  let rememberedEmail := getItem s.localStorage (js "rememberedEmail")
  if truthy rememberedEmail then
    { s with
      emailInput := { s.emailInput with value := rememberedEmail.getD [] },
      rememberMeChecked := true }
  else
    s

/-- The click handler of `googleBtn`. -/
def onGoogleClick (s : LoginPage) : LoginPage :=
  showAlert (js "error") (js "Google login is not configured yet") s

/-- The click handler of `githubBtn`. -/
def onGithubClick (s : LoginPage) : LoginPage :=
  showAlert (js "error") (js "GitHub login is not configured yet") s

/-- The click handler of `forgotLink`. -/
def onForgotClick (s : LoginPage) : LoginPage :=
  showAlert (js "error") (js "Password reset functionality not implemented yet") s

/-- The click handler of `signupLink`: it only writes to the console. -/
def onSignupClick (s : LoginPage) : LoginPage := s

/-- What can happen to the login page. -/
inductive Event where
  /-- The user changes the email to `value`; the input handler runs. -/
  | emailInput (value : JSString)
  /-- The user changes the password to `value`; the input handler runs. -/
  | passwordInput (value : JSString)
  | emailBlur
  | passwordBlur
  /-- The user clicks the checkbox; no handler is attached to it. -/
  | rememberMeClick
  | togglePassword
  /-- A submit event, from the submit control or from Ctrl/Cmd+Enter. -/
  | submit
  /-- The oldest pending call resolves or rejects. -/
  | callSettled
  | redirectTimer
  | domContentLoaded
  | googleClick
  | githubClick
  | forgotClick
  | signupClick
  deriving DecidableEq

/-- One event on the login page. -/
def step (s : LoginPage) : Event → LoginPage
  | .emailInput v => onEmailInput { s with emailInput := { s.emailInput with value := v } }
  | .passwordInput v =>
    onPasswordInput { s with passwordInput := { s.passwordInput with value := v } }
  | .emailBlur => onEmailBlur s
  | .passwordBlur => onPasswordBlur s
  | .rememberMeClick => { s with rememberMeChecked := !s.rememberMeChecked }
  | .togglePassword => onTogglePassword s
  | .submit => onSubmit s
  | .callSettled => onCallSettled s
  | .redirectTimer => onRedirectTimer s
  | .domContentLoaded => onDOMContentLoaded s
  | .googleClick => onGoogleClick s
  | .githubClick => onGithubClick s
  | .forgotClick => onForgotClick s
  | .signupClick => onSignupClick s

/-- A sequence of events, first to last. -/
def run (s : LoginPage) (events : List Event) : LoginPage := events.foldl step s

/-- The login page when the script starts: nothing is being submitted, the
submit control is enabled, no call or timer is pending, no field is marked.
Field values, alerts and the store are whatever the markup and the browser
provide. -/
def initial (s : LoginPage) : Bool :=
  !s.isSubmitting && !s.submitBtnDisabled && s.pendingCalls == [] && s.redirectTimers == 0 &&
  freshField s.emailInput && freshField s.passwordInput

end Login

/-! ## The password-reset page -/

namespace Reset

/-- The object `simulatePasswordReset` resolves with. -/
structure ResetResponse where
  success : Bool
  message : JSString
  deriving DecidableEq

/-- The state of the reset page: the DOM nodes `forgot-password.js` reads or
writes, its variable, and the calls and timers it has started. -/
structure ResetPage where
  emailInput : Field
  /-- Whether `successAlert.style.display` is `flex` rather than `none`. -/
  successAlertShown : Bool
  successAlertText : JSString
  /-- Whether `errorAlert.style.display` is `flex` rather than `none`. -/
  errorAlertShown : Bool
  errorAlertText : JSString
  /-- Whether `infoBox.style.display` is `block` rather than `none`. -/
  infoBoxShown : Bool
  /-- The property `disabled` of `submitBtn`. -/
  submitBtnDisabled : Bool
  /-- Whether `submitBtn` carries the class `loading`. -/
  submitBtnLoading : Bool
  isSubmitting : Bool
  /-- The arguments of the calls of `simulatePasswordReset` that have not
  settled yet, oldest first. -/
  pendingCalls : List JSString
  /-- The cooldown timers that have not fired yet. -/
  cooldownTimers : Nat
  deriving DecidableEq

/-- The function `hideAlerts` of `forgot-password.js`. -/
def hideAlerts (s : ResetPage) : ResetPage :=
  { s with successAlertShown := false, errorAlertShown := false }

/-- The function `showAlert` of `forgot-password.js`. -/
def showAlert (type message : JSString) (s : ResetPage) : ResetPage :=
  let s := hideAlerts s
  if type = js "success" then
    { s with successAlertText := message, successAlertShown := true, infoBoxShown := true }
  else if type = js "error" then
    { s with errorAlertText := message, errorAlertShown := true }
  else
    s

/-- The function `validateForm` of `forgot-password.js`. -/
def validateForm (s : ResetPage) : ResetPage × Bool :=
  let r := validateField s.emailInput validators_email
  ({ s with emailInput := r.1 }, r.2)

/-- The blur handler of `emailInput`. -/
def onEmailBlur (s : ResetPage) : ResetPage :=
  if truthy (some s.emailInput.value) then
    { s with emailInput := (validateField s.emailInput validators_email).1 }
  else
    s

/-- The input handler of `emailInput`. -/
def onEmailInput (s : ResetPage) : ResetPage :=
  let s := { s with emailInput := s.emailInput.noteCleared }
  let s := if s.emailInput.invalid then { s with emailInput := clearError s.emailInput } else s
  let s := hideAlerts s
  { s with infoBoxShown := false }

/-- The function `simulatePasswordReset`: how its promise settles once the
delay is over. The `reject` of the source is commented out. -/
def simulatePasswordReset (_email : JSString) : Except JSString ResetResponse :=
  .ok { success := true, message := js "Password reset email sent" }

/-- The submit handler of `forgotPasswordForm` up to its `await`. -/
def onSubmit (s : ResetPage) : ResetPage :=
  if s.isSubmitting then
    s
  else
    let s := hideAlerts s
    let s := { s with infoBoxShown := false }
    let v := validateForm s
    if !v.2 then
      v.1
    else
      let s := v.1
      let email := jsTrim s.emailInput.value
      { s with
        isSubmitting := true, submitBtnDisabled := true, submitBtnLoading := true,
        pendingCalls := s.pendingCalls ++ [email] }

/-- The message of the success alert. -/
def successMessage : JSString :=
  js "If that email address is in our database, we will send you an email to reset your password."

/-- The submit handler of `forgotPasswordForm` after its `await`: the rest of
the `try` block when the call resolved, the `catch` block when it rejected. -/
def afterAwait (r : Except JSString ResetResponse) (s : ResetPage) : ResetPage :=
  match r with
  | .ok _ =>
    let s := showAlert (js "success") successMessage s
    let s := { s with emailInput := { s.emailInput with value := [] } }
    let s := { s with emailInput := clearError s.emailInput.noteCleared }
    { s with cooldownTimers := s.cooldownTimers + 1 }
  | .error _ =>
    let s := showAlert (js "error") (js "An error occurred. Please try again later.") s
    { s with isSubmitting := false, submitBtnDisabled := false, submitBtnLoading := false }

/-- The oldest pending call of `simulatePasswordReset` settles and the submit
handler that awaits it goes on. -/
def onCallSettled (s : ResetPage) : ResetPage :=
  match s.pendingCalls with
  | [] => s
  | email :: rest => afterAwait (simulatePasswordReset email) { s with pendingCalls := rest }

/-- A cooldown timer fires. -/
def onCooldownTimer (s : ResetPage) : ResetPage :=
  if s.cooldownTimers = 0 then
    s
  else
    { s with
      cooldownTimers := s.cooldownTimers - 1,
      isSubmitting := false, submitBtnDisabled := false, submitBtnLoading := false }

/-- The click handler of `backToLoginLink`: it only writes to the console. -/
def onBackToLoginClick (s : ResetPage) : ResetPage := s

/-- What can happen to the reset page. -/
inductive Event where
  /-- The user changes the email to `value`; the input handler runs. -/
  | emailInput (value : JSString)
  | emailBlur
  /-- A submit event, from the submit control or from Ctrl/Cmd+Enter. -/
  | submit
  /-- The oldest pending call settles. -/
  | callSettled
  | cooldownTimer
  | backToLoginClick
  deriving DecidableEq

/-- One event on the reset page. -/
def step (s : ResetPage) : Event → ResetPage
  | .emailInput v => onEmailInput { s with emailInput := { s.emailInput with value := v } }
  | .emailBlur => onEmailBlur s
  | .submit => onSubmit s
  | .callSettled => onCallSettled s
  | .cooldownTimer => onCooldownTimer s
  | .backToLoginClick => onBackToLoginClick s

/-- A sequence of events, first to last. -/
def run (s : ResetPage) (events : List Event) : ResetPage := events.foldl step s

/-- The reset page when the script starts: nothing is being submitted, the
submit control is enabled, no call or timer is pending, the field is not
marked. The field value and the alerts are whatever the markup provides. -/
def initial (s : ResetPage) : Bool :=
  !s.isSubmitting && !s.submitBtnDisabled && s.pendingCalls == [] && s.cooldownTimers == 0 &&
  freshField s.emailInput

end Reset

/-! ## Sample pages -/

/-- An empty, unmarked field. -/
def blankField : Field :=
  { value := [], invalid := false, errorText := [], ariaInvalid := none,
    lastRun := none, clearedSince := false }

/-- A login page with empty fields, hidden alerts and an empty store. -/
def Login.blankPage : Login.LoginPage :=
  { emailInput := blankField, passwordInput := blankField, passwordVisible := false,
    rememberMeChecked := false, successAlertShown := false, successAlertText := [],
    errorAlertShown := false, errorAlertText := [], submitBtnDisabled := false,
    submitBtnLoading := false, isSubmitting := false, localStorage := [],
    pendingCalls := [], redirectTimers := 0 }

/-- A reset page with an empty field and hidden alerts. -/
def Reset.blankPage : Reset.ResetPage :=
  { emailInput := blankField, successAlertShown := false, successAlertText := [],
    errorAlertShown := false, errorAlertText := [], infoBoxShown := false,
    submitBtnDisabled := false, submitBtnLoading := false, isSubmitting := false,
    pendingCalls := [], cooldownTimers := 0 }

/-- The reset page with `e` in its email field. -/
def Reset.withEmail (s : Reset.ResetPage) (e : JSString) : Reset.ResetPage :=
  { s with emailInput := { s.emailInput with value := e } }

/-! ## Invariants of the submission state -/

/-- At most one call of `simulateLogin` is pending, and none while
`isSubmitting` is false. -/
def Login.Quiet (s : Login.LoginPage) : Prop :=
  (s.isSubmitting = false → s.pendingCalls = []) ∧ s.pendingCalls.length ≤ 1

/-- At most one call or cooldown timer is pending, and none while
`isSubmitting` is false. -/
def Reset.Quiet (s : Reset.ResetPage) : Prop :=
  (s.isSubmitting = false → s.pendingCalls = [] ∧ s.cooldownTimers = 0) ∧
  s.pendingCalls.length + s.cooldownTimers ≤ 1

/-- The marker of a field agrees with its history: it is shown exactly when
the last validator run failed and nothing has cleared it since. -/
def Field.Consistent (f : Field) : Prop :=
  f.invalid = (f.lastRunFailed && !f.clearedSince)

/-! # Properties -/

/-! ## The matcher against the language of its items -/

theorem matchHere_iff_lang (s : JSString) (items : List RegexItem) :
    matchHere s items = true ↔ Lang items s := by
  induction s generalizing items with
  | nil =>
    cases items with
    | nil => simp [matchHere, Lang]
    | cons i rest =>
      cases i with
      | char c => simp [matchHere, Lang]
      | classPlus p =>
        simp only [matchHere, Lang]
        constructor
        · intro h; cases h
        · rintro ⟨a, t, ha, _, hs, _⟩
          cases a with
          | nil => exact absurd rfl ha
          | cons y a => simp at hs
  | cons x s ih =>
    cases items with
    | nil => simp [matchHere, Lang]
    | cons i rest =>
      cases i with
      | char c =>
        simp only [matchHere, Lang, Bool.and_eq_true, beq_iff_eq, ih]
        constructor
        · rintro ⟨rfl, h⟩; exact ⟨s, rfl, h⟩
        · rintro ⟨t, ht, h⟩
          cases ht
          exact ⟨rfl, h⟩
      | classPlus p =>
        simp only [matchHere, Bool.and_eq_true, Bool.or_eq_true, ih]
        simp only [Lang]
        constructor
        · rintro ⟨hx, h | h⟩
          · obtain ⟨a, t, _, hall, hs, ht⟩ := h
            refine ⟨x :: a, t, by simp, ?_, by simp [hs], ht⟩
            intro y hy
            rcases List.mem_cons.mp hy with rfl | hy
            · exact hx
            · exact hall y hy
          · exact ⟨[x], s, by simp, by simpa using hx, by simp, h⟩
        · rintro ⟨a, t, ha, hall, hs, ht⟩
          cases a with
          | nil => exact absurd rfl ha
          | cons y a =>
            simp only [List.cons_append, List.cons.injEq] at hs
            obtain ⟨rfl, rfl⟩ := hs
            refine ⟨hall _ (List.mem_cons_self _ _), ?_⟩
            cases a with
            | nil => right; simpa using ht
            | cons z a =>
              left
              exact ⟨z :: a, t, by simp, fun w hw => hall w (List.mem_cons_of_mem _ hw),
                rfl, ht⟩

theorem notSpaceNorAt_iff (x : Nat) :
    notSpaceNorAt x = true ↔ (isWhiteSpace x = false ∧ x ≠ 0x40) := by
  unfold notSpaceNorAt
  cases h : isWhiteSpace x <;> simp

theorem emailRegexTest_iff (s : JSString) :
    emailRegexTest s = true ↔ MatchesEmailPattern s := by
  unfold emailRegexTest emailRegex MatchesEmailPattern NonBlankRun
  rw [matchHere_iff_lang]
  simp only [Lang, notSpaceNorAt_iff]
  constructor
  · rintro ⟨a, t, ha, hall, rfl, t2, rfl, b, t3, hb, hbl, rfl, t4, rfl, c, t5, hc, hcl, rfl, rfl⟩
    exact ⟨a, b, c, ⟨ha, hall⟩, ⟨hb, hbl⟩, ⟨hc, hcl⟩, by simp⟩
  · rintro ⟨a, b, c, ⟨ha, hall⟩, ⟨hb, hbl⟩, ⟨hc, hcl⟩, rfl⟩
    exact ⟨a, 0x40 :: (b ++ 0x2E :: c), ha, hall, by simp, b ++ 0x2E :: c, rfl,
      b, 0x2E :: c, hb, hbl, rfl, c, rfl, c, [], hc, hcl, by simp, rfl⟩


/-! ## Strings -/

theorem truthy_some (l : JSString) : truthy (some l) = true ↔ l ≠ [] := by
  cases l <;> simp [truthy]

theorem jsTrim_eq_nil_iff (s : JSString) :
    jsTrim s = [] ↔ ∀ x ∈ s, isWhiteSpace x = true := by
  unfold jsTrim
  rw [List.reverse_eq_nil_iff, List.dropWhile_eq_nil_iff]
  constructor
  · intro h
    have hd : s.dropWhile isWhiteSpace = [] := by
      cases hs : s.dropWhile isWhiteSpace with
      | nil => rfl
      | cons y l =>
        have hy : isWhiteSpace y = true := h y (by simp [hs])
        have hn := List.head_dropWhile_not isWhiteSpace s (by simp [hs])
        simp [hs, hy] at hn
    exact List.dropWhile_eq_nil_iff.mp hd
  · intro h x hx
    rw [List.dropWhile_eq_nil_iff.mpr h] at hx
    simp at hx

theorem jsTrim_ne_nil_of_matches (s : JSString) (h : MatchesEmailPattern s) :
    jsTrim s ≠ [] := by
  obtain ⟨a, b, c, ⟨ha, hall⟩, _, _, rfl⟩ := h
  intro hn
  rw [jsTrim_eq_nil_iff] at hn
  cases a with
  | nil => exact ha rfl
  | cons x a =>
    have h1 := (hall x (List.mem_cons_self _ _)).1
    have h2 := hn x (by simp)
    rw [h1] at h2
    cases h2

theorem email_branches (s : JSString) :
    (MatchesEmailPattern s ∧ jsTrim s ≠ [] ∧ emailRegexTest s = true) ∨
    (¬ MatchesEmailPattern s ∧ jsTrim s = [] ∧ truthy (some (jsTrim s)) = false) ∨
    (¬ MatchesEmailPattern s ∧ jsTrim s ≠ [] ∧ truthy (some (jsTrim s)) = true ∧
      emailRegexTest s = false) := by
  by_cases hm : MatchesEmailPattern s
  · exact Or.inl ⟨hm, jsTrim_ne_nil_of_matches s hm, (emailRegexTest_iff s).mpr hm⟩
  · have hr : emailRegexTest s = false := by
      cases h : emailRegexTest s
      · rfl
      · exact absurd ((emailRegexTest_iff s).mp h) hm
    by_cases ht : jsTrim s = []
    · exact Or.inr (Or.inl ⟨hm, ht, by simp [ht, truthy]⟩)
    · exact Or.inr (Or.inr ⟨hm, ht, (truthy_some _).mpr ht, hr⟩)

theorem login_validators_email_eq_none_iff (s : JSString) :
    Login.validators_email s = none ↔ MatchesEmailPattern s := by
  rcases email_branches s with ⟨hm, ht, hr⟩ | ⟨hm, ht, _⟩ | ⟨hm, ht, htr, hr⟩
  · have h := (truthy_some _).mpr ht
    simp [Login.validators_email, h, hr, hm]
  · simp [Login.validators_email, truthy, hm, ht]
  · simp [Login.validators_email, htr, hr, hm]

/-! ## Validators and the simulated login -/

/-- C1: on both pages `validators.email` returns `null` exactly for the strings
that are, as a whole, a run of non-blank non-`@` code units, `@`, such a run,
`.`, such a run; for every other string it returns a non-empty message, which is
`Email is required` exactly when the trimmed string is empty and
`Please enter a valid email address` exactly when it is not. -/
theorem email_validator_contract (s : JSString) :
    (Login.validators_email s = none ↔ MatchesEmailPattern s) ∧
    (Reset.validators_email s = none ↔ MatchesEmailPattern s) ∧
    (¬ MatchesEmailPattern s →
      ∃ m, Login.validators_email s = some m ∧ Reset.validators_email s = some m ∧ m ≠ [] ∧
        (m = js "Email is required" ↔ jsTrim s = []) ∧
        (m = js "Please enter a valid email address" ↔ jsTrim s ≠ [])) := by
  have hne : js "Email is required" ≠ js "Please enter a valid email address" := by decide
  rcases email_branches s with ⟨hm, ht, hr⟩ | ⟨hm, ht, _⟩ | ⟨hm, ht, htr, hr⟩
  · have h := (truthy_some _).mpr ht
    simp [Login.validators_email, Reset.validators_email, h, hr, hm]
  · refine ⟨?_, ?_, fun _ => ⟨js "Email is required", ?_, ?_, by decide, ?_, ?_⟩⟩ <;>
      simp [Login.validators_email, Reset.validators_email, truthy, hm, ht, hne]
  · refine ⟨?_, ?_, fun _ =>
      ⟨js "Please enter a valid email address", ?_, ?_, by decide, ?_, ?_⟩⟩ <;>
      simp [Login.validators_email, Reset.validators_email, htr, hr, hm, ht, hne.symm]

/-- C2: `validators.password` returns `Password is required` for the empty
string, `Password must be at least 6 characters` for a non-empty string of
fewer than six code units, and `null` for a string of six or more. -/
theorem password_validator_contract (s : JSString) :
    (s = [] → Login.validators_password s = some (js "Password is required")) ∧
    (s ≠ [] → s.length < 6 →
      Login.validators_password s = some (js "Password must be at least 6 characters")) ∧
    (6 ≤ s.length → Login.validators_password s = none) := by
  refine ⟨?_, ?_, ?_⟩
  · rintro rfl
    simp [Login.validators_password, truthy]
  · intro hs hl
    have h := (truthy_some s).mpr hs
    simp [Login.validators_password, h, hl]
  · intro hl
    have hs : s ≠ [] := by
      rintro rfl
      simp at hl
    have h := (truthy_some s).mpr hs
    have h6 : ¬ s.length < 6 := by omega
    simp [Login.validators_password, h, h6]

/-- C3: `simulateLogin` resolves exactly when the email is `demo@example.com`
and the password is `password123`; for every other pair it rejects, always with
the message `Invalid email or password.`. -/
theorem simulateLogin_contract (email password : JSString) (rememberMe : Bool) :
    ((∃ r, Login.simulateLogin email password rememberMe = .ok r) ↔
      (email = js "demo@example.com" ∧ password = js "password123")) ∧
    (¬ (email = js "demo@example.com" ∧ password = js "password123") →
      Login.simulateLogin email password rememberMe =
        .error (js "Invalid email or password.")) := by
  unfold Login.simulateLogin
  by_cases h : email = js "demo@example.com" ∧ password = js "password123"
  · simp [h]
  · simp only [h, if_false, not_false_eq_true, forall_true_left, and_true, iff_false]
    rintro ⟨r, hr⟩
    cases hr

/-! ## The re-entrancy guard -/

/-- C4: on both pages a submit event in a state where `isSubmitting` is true
leaves the whole state as it is, the queue of remote calls included, so that
handling it twice is handling it once. -/
theorem submit_while_submitting_is_noop (l : Login.LoginPage) (r : Reset.ResetPage)
    (hl : l.isSubmitting = true) (hr : r.isSubmitting = true) :
    Login.step l .submit = l ∧ (Login.step l .submit).pendingCalls = l.pendingCalls ∧
    Login.step (Login.step l .submit) .submit = Login.step l .submit ∧
    Reset.step r .submit = r ∧ (Reset.step r .submit).pendingCalls = r.pendingCalls ∧
    Reset.step (Reset.step r .submit) .submit = Reset.step r .submit := by
  have h1 : Login.step l .submit = l := by simp [Login.step, Login.onSubmit, hl]
  have h2 : Reset.step r .submit = r := by simp [Reset.step, Reset.onSubmit, hr]
  simp [h1, h2]

theorem submit_while_submitting_is_noop_witness :
    (Login.run Login.blankPage
        [.emailInput (js "demo@example.com"), .passwordInput (js "password123"),
          .submit]).isSubmitting = true ∧
    (Reset.run Reset.blankPage [.emailInput (js "a@b.c"), .submit]).isSubmitting = true ∧
    Login.step (Login.run Login.blankPage
        [.emailInput (js "demo@example.com"), .passwordInput (js "password123"), .submit])
      .submit =
      Login.run Login.blankPage
        [.emailInput (js "demo@example.com"), .passwordInput (js "password123"), .submit] ∧
    Reset.step (Reset.run Reset.blankPage [.emailInput (js "a@b.c"), .submit]) .submit =
      Reset.run Reset.blankPage [.emailInput (js "a@b.c"), .submit] :=
  have h := submit_while_submitting_is_noop
    (Login.run Login.blankPage
      [.emailInput (js "demo@example.com"), .passwordInput (js "password123"), .submit])
    (Reset.run Reset.blankPage [.emailInput (js "a@b.c"), .submit])
    (by decide) (by decide)
  ⟨by decide, by decide, h.1, h.2.2.2.1⟩

/-! ## One submission at a time -/

theorem login_step_quiet (s : Login.LoginPage) (e : Login.Event) (h : Login.Quiet s) :
    Login.Quiet (Login.step s e) := by
  obtain ⟨h1, h2⟩ := h
  cases e <;>
    simp only [Login.step, Login.onEmailInput, Login.onPasswordInput, Login.onEmailBlur,
      Login.onPasswordBlur, Login.onTogglePassword, Login.onRedirectTimer,
      Login.onDOMContentLoaded, Login.onGoogleClick, Login.onGithubClick, Login.onForgotClick,
      Login.onSignupClick, Login.showAlert, Login.hideAlerts, Login.Quiet]
  case submit =>
    unfold Login.onSubmit
    by_cases hs : s.isSubmitting = true
    · simp [hs, h2]
    · have hs2 : s.isSubmitting = false := by simpa using hs
      have hp := h1 hs2
      simp only [hs2, Login.validateForm, Login.hideAlerts]
      split_ifs <;> simp [hs2, hp]
  case callSettled =>
    unfold Login.onCallSettled
    cases hp : s.pendingCalls with
    | nil => exact ⟨h1, h2⟩
    | cons c rest =>
      have hr : rest = [] := by
        rw [hp] at h2
        simp at h2
        exact h2
      subst hr
      simp only [Login.afterAwait, Login.showAlert, Login.hideAlerts]
      split <;> (try split) <;> simp
  all_goals (first | exact ⟨h1, h2⟩ | (split <;> exact ⟨h1, h2⟩))

theorem login_run_quiet (s : Login.LoginPage) (events : List Login.Event)
    (h : Login.Quiet s) : Login.Quiet (Login.run s events) := by
  induction events generalizing s with
  | nil => exact h
  | cons e es ih => exact ih _ (login_step_quiet s e h)

theorem login_initial_quiet (s : Login.LoginPage) (h : Login.initial s = true) :
    Login.Quiet s := by
  simp [Login.initial] at h
  simp [Login.Quiet, h]

theorem reset_step_quiet (s : Reset.ResetPage) (e : Reset.Event) (h : Reset.Quiet s) :
    Reset.Quiet (Reset.step s e) := by
  obtain ⟨h1, h2⟩ := h
  cases e <;>
    simp only [Reset.step, Reset.onEmailInput, Reset.onEmailBlur, Reset.onBackToLoginClick,
      Reset.hideAlerts, Reset.Quiet]
  case submit =>
    unfold Reset.onSubmit
    by_cases hs : s.isSubmitting = true
    · rw [if_pos hs]
      exact ⟨h1, h2⟩
    · have hs2 : s.isSubmitting = false := by simpa using hs
      obtain ⟨hp, ht⟩ := h1 hs2
      simp only [hs2, Reset.validateForm, Reset.hideAlerts]
      split_ifs <;> simp [hs2, hp, ht]
  case callSettled =>
    unfold Reset.onCallSettled
    cases hp : s.pendingCalls with
    | nil => exact ⟨h1, h2⟩
    | cons c rest =>
      rw [hp] at h2
      simp only [List.length_cons] at h2
      have hr : rest = [] := List.eq_nil_of_length_eq_zero (by omega)
      have ht : s.cooldownTimers = 0 := by omega
      subst hr
      simp [Reset.afterAwait, Reset.simulatePasswordReset, Reset.showAlert, Reset.hideAlerts,
        js, ht]
      cases hf : s.isSubmitting with
      | true => rfl
      | false =>
        have := (h1 hf).1
        simp [hp] at this
  case cooldownTimer =>
    unfold Reset.onCooldownTimer
    split_ifs with ht
    · exact ⟨h1, h2⟩
    · have hp : s.pendingCalls = [] := List.eq_nil_of_length_eq_zero (by omega)
      have : s.cooldownTimers - 1 = 0 := by omega
      simp [hp, this]
  all_goals (first | exact ⟨h1, h2⟩ | (split <;> exact ⟨h1, h2⟩))

theorem reset_run_quiet (s : Reset.ResetPage) (events : List Reset.Event)
    (h : Reset.Quiet s) : Reset.Quiet (Reset.run s events) := by
  induction events generalizing s with
  | nil => exact h
  | cons e es ih => exact ih _ (reset_step_quiet s e h)

theorem reset_initial_quiet (s : Reset.ResetPage) (h : Reset.initial s = true) :
    Reset.Quiet s := by
  simp [Reset.initial] at h
  simp [Reset.Quiet, h]

/-! ## Fields under validation -/

theorem validateField_snd (f : Field) (v : JSString → Option JSString) :
    (validateField f v).2 = !truthy (v f.value) := by
  unfold validateField
  cases h : truthy (v f.value) <;> simp [h]

theorem validateField_value (f : Field) (v : JSString → Option JSString) :
    (validateField f v).1.value = f.value := by
  unfold validateField
  cases h : truthy (v f.value) <;> simp [h, showError, clearError]

theorem validateField_of_none (f : Field) (v : JSString → Option JSString)
    (h : v f.value = none) :
    validateField f v =
      (clearError { f with lastRun := some none, clearedSince := false }, true) := by
  simp [validateField, h, truthy]

theorem truthy_eq_false_of_validator (r : Option JSString) (h : truthy r = false)
    (hr : r = none ∨ ∃ m, r = some m ∧ m ≠ []) : r = none := by
  rcases hr with h0 | ⟨m, rfl, hm⟩
  · exact h0
  · rw [(truthy_some m).mpr hm] at h
    cases h

theorem login_validators_email_cases (s : JSString) :
    Login.validators_email s = none ∨ ∃ m, Login.validators_email s = some m ∧ m ≠ [] := by
  unfold Login.validators_email
  split_ifs
  · exact Or.inr ⟨_, rfl, by decide⟩
  · exact Or.inr ⟨_, rfl, by decide⟩
  · exact Or.inl rfl

theorem login_validators_password_cases (s : JSString) :
    Login.validators_password s = none ∨
      ∃ m, Login.validators_password s = some m ∧ m ≠ [] := by
  unfold Login.validators_password
  split_ifs
  · exact Or.inr ⟨_, rfl, by decide⟩
  · exact Or.inr ⟨_, rfl, by decide⟩
  · exact Or.inl rfl

theorem reset_validators_email_cases (s : JSString) :
    Reset.validators_email s = none ∨ ∃ m, Reset.validators_email s = some m ∧ m ≠ [] := by
  unfold Reset.validators_email
  split_ifs
  · exact Or.inr ⟨_, rfl, by decide⟩
  · exact Or.inr ⟨_, rfl, by decide⟩
  · exact Or.inl rfl

theorem dropWhile_of_all_false (p : Nat → Bool) (l : List Nat)
    (h : ∀ x ∈ l, p x = false) : l.dropWhile p = l := by
  cases l with
  | nil => rfl
  | cons x l => simp [List.dropWhile, h x (List.mem_cons_self _ _)]

theorem jsTrim_of_no_space (s : JSString) (h : ∀ x ∈ s, isWhiteSpace x = false) :
    jsTrim s = s := by
  unfold jsTrim
  rw [dropWhile_of_all_false _ s h, dropWhile_of_all_false _ s.reverse, List.reverse_reverse]
  intro x hx
  exact h x (List.mem_reverse.mp hx)

theorem jsTrim_of_matches (s : JSString) (h : MatchesEmailPattern s) : jsTrim s = s := by
  apply jsTrim_of_no_space
  obtain ⟨a, b, c, ⟨_, ha⟩, ⟨_, hb⟩, ⟨_, hc⟩, rfl⟩ := h
  intro x hx
  simp only [List.mem_append, List.mem_singleton] at hx
  rcases hx with (((hx | rfl) | hx) | rfl) | hx
  · exact (ha x hx).1
  · decide
  · exact (hb x hx).1
  · decide
  · exact (hc x hx).1

/-! ## The reset page does not tell addresses apart -/

/-- C5: on the reset page, from any reachable state in which `isSubmitting` is
false, submitting one valid email or another and letting the simulated call
settle ends in the same state: the success alert shown with the one fixed
message, no error alert, the email field empty and unmarked, the info panel
shown. The simulated call resolves for every email, so the failure branch is
not taken. -/
theorem reset_outcome_independent_of_email (s0 : Reset.ResetPage)
    (events : List Reset.Event) (e1 e2 : JSString)
    (h0 : Reset.initial s0 = true)
    (hs : (Reset.run s0 events).isSubmitting = false)
    (h1 : Reset.validators_email e1 = none) (h2 : Reset.validators_email e2 = none) :
    Reset.run (Reset.withEmail (Reset.run s0 events) e1) [.submit, .callSettled] =
      Reset.run (Reset.withEmail (Reset.run s0 events) e2) [.submit, .callSettled] ∧
    (Reset.run (Reset.withEmail (Reset.run s0 events) e1)
      [.submit, .callSettled]).successAlertShown = true ∧
    (Reset.run (Reset.withEmail (Reset.run s0 events) e1)
      [.submit, .callSettled]).successAlertText = Reset.successMessage ∧
    (Reset.run (Reset.withEmail (Reset.run s0 events) e1)
      [.submit, .callSettled]).errorAlertShown = false ∧
    (Reset.run (Reset.withEmail (Reset.run s0 events) e1)
      [.submit, .callSettled]).emailInput.value = [] ∧
    (Reset.run (Reset.withEmail (Reset.run s0 events) e1)
      [.submit, .callSettled]).emailInput.invalid = false ∧
    (Reset.run (Reset.withEmail (Reset.run s0 events) e1)
      [.submit, .callSettled]).infoBoxShown = true ∧
    (∀ e, ∃ r, Reset.simulatePasswordReset e = .ok r) := by
  have hq := reset_run_quiet s0 events (reset_initial_quiet s0 h0)
  obtain ⟨hp, _⟩ := hq.1 hs
  generalize Reset.run s0 events = s at hs hp ⊢
  have key : ∀ e, Reset.validators_email e = none →
      Reset.run (Reset.withEmail s e) [.submit, .callSettled] =
        { s with
          emailInput :=
            { value := [], invalid := false, errorText := [], ariaInvalid := some (js "false"),
              lastRun := some none, clearedSince := true },
          successAlertShown := true, successAlertText := Reset.successMessage,
          errorAlertShown := false, infoBoxShown := true,
          submitBtnDisabled := true, submitBtnLoading := true, isSubmitting := true,
          pendingCalls := [], cooldownTimers := s.cooldownTimers + 1 } := by
    intro e he
    simp [Reset.run, Reset.step, Reset.onSubmit, Reset.withEmail, hs, Reset.validateForm,
      Reset.hideAlerts, validateField_of_none, he, hp, Reset.onCallSettled, Reset.afterAwait,
      Reset.simulatePasswordReset, Reset.showAlert, clearError, Field.noteCleared]
  rw [key e1 h1, key e2 h2]
  exact ⟨rfl, rfl, rfl, rfl, rfl, rfl, rfl, fun e => ⟨_, rfl⟩⟩

theorem reset_outcome_independent_of_email_witness :
    Reset.run (Reset.withEmail (Reset.run Reset.blankPage [.emailBlur]) (js "a@b.c"))
        [.submit, .callSettled] =
      Reset.run (Reset.withEmail (Reset.run Reset.blankPage [.emailBlur]) (js "x.y@z.org"))
        [.submit, .callSettled] :=
  (reset_outcome_independent_of_email Reset.blankPage [.emailBlur] (js "a@b.c")
    (js "x.y@z.org") (by decide) (by decide) (by decide) (by decide)).1

/-! ## The remembered email -/

theorem getItem_setItem (st : Storage) (key value : JSString) :
    getItem (setItem st key value) key = some value := by
  simp [getItem, setItem]

theorem getItem_removeItem (st : Storage) (key : JSString) :
    getItem (removeItem st key) key = none := by
  simp [getItem, removeItem, List.find?_eq_none]

theorem login_simulateLogin_ok (email password : JSString) (rememberMe : Bool)
    (h : ∃ r, Login.simulateLogin email password rememberMe = .ok r) :
    email = js "demo@example.com" ∧
      Login.simulateLogin email password rememberMe =
        .ok { success := true, userEmail := email } := by
  unfold Login.simulateLogin at h ⊢
  by_cases hc : email = js "demo@example.com" ∧ password = js "password123"
  · simp [hc]
  · simp only [hc, if_false] at h
    obtain ⟨r, hr⟩ := h
    cases hr

theorem login_run_cons (s : Login.LoginPage) (e : Login.Event) (es : List Login.Event) :
    Login.run s (e :: es) = Login.run (Login.step s e) es := rfl

theorem login_run_append (s : Login.LoginPage) (es : List Login.Event) (e : Login.Event) :
    Login.run s (es ++ [e]) = Login.step (Login.run s es) e := by
  simp [Login.run, List.foldl_append]

/-- While a call is pending, no event other than its settling ends the
submission, touches the queue or writes to the store. -/
theorem login_in_flight_step (s : Login.LoginPage) (e : Login.Event) (c : Login.LoginCall)
    (he : e ≠ .callSettled) (h1 : s.isSubmitting = true) (h2 : s.pendingCalls = [c]) :
    (Login.step s e).isSubmitting = true ∧ (Login.step s e).pendingCalls = [c] ∧
      (Login.step s e).localStorage = s.localStorage := by
  cases e
  case callSettled => exact absurd rfl he
  all_goals
    simp only [Login.step, Login.onEmailInput, Login.onPasswordInput, Login.onEmailBlur,
      Login.onPasswordBlur, Login.onTogglePassword, Login.onRedirectTimer,
      Login.onDOMContentLoaded, Login.onGoogleClick, Login.onGithubClick, Login.onForgotClick,
      Login.onSignupClick, Login.onSubmit, Login.validateForm, Login.showAlert,
      Login.hideAlerts]
    (try split_ifs) <;> simp_all

theorem login_in_flight_run (s : Login.LoginPage) (mid : List Login.Event)
    (c : Login.LoginCall) (hmid : Login.Event.callSettled ∉ mid)
    (h1 : s.isSubmitting = true) (h2 : s.pendingCalls = [c]) :
    (Login.run s mid).isSubmitting = true ∧ (Login.run s mid).pendingCalls = [c] ∧
      (Login.run s mid).localStorage = s.localStorage := by
  induction mid generalizing s with
  | nil => exact ⟨h1, h2, rfl⟩
  | cons e es ih =>
    have he : e ≠ .callSettled := fun h => hmid (by simp [h])
    have hes : Login.Event.callSettled ∉ es := fun h => hmid (List.mem_cons_of_mem _ h)
    obtain ⟨g1, g2, g3⟩ := login_in_flight_step s e c he h1 h2
    obtain ⟨k1, k2, k3⟩ := ih (Login.step s e) hes g1 g2
    exact ⟨k1, k2, by rw [login_run_cons, k3, g3]⟩

/-- When the pending call resolves, the store is written from the arguments of
the call. -/
theorem login_settle_store (t : Login.LoginPage) (c : Login.LoginCall)
    (r : Login.LoginResponse) (h : t.pendingCalls = [c])
    (hr : Login.simulateLogin c.email c.password c.rememberMe = .ok r) :
    (Login.step t .callSettled).localStorage =
      if c.rememberMe then setItem t.localStorage (js "rememberedEmail") c.email
      else removeItem t.localStorage (js "rememberedEmail") := by
  simp only [Login.step, Login.onCallSettled, h, hr, Login.afterAwait]
  cases c.rememberMe <;> simp [Login.showAlert, Login.hideAlerts]

/-- C6: on the login page, take a reachable state in which `isSubmitting` is
false, the form validates and the simulated login resolves for the values the
submit handler reads. Submit, let any events go by while the call is pending
(edits of the fields and of the checkbox among them), and let the call settle.
If remember-me was checked at the submit, the store then holds the submitted
email under `rememberedEmail`, and the page-load handler, run on any page with
that store, puts that email in the email field and checks remember-me. If it
was unchecked, the key is absent from the store, and the page-load handler
changes nothing. -/
theorem remember_me_roundtrip (s0 : Login.LoginPage) (events mid : List Login.Event)
    (h0 : Login.initial s0 = true)
    (hs : (Login.run s0 events).isSubmitting = false)
    (hv : (Login.validateForm (Login.run s0 events)).2 = true)
    (hok : ∃ r, Login.simulateLogin (jsTrim (Login.run s0 events).emailInput.value)
      (Login.run s0 events).passwordInput.value (Login.run s0 events).rememberMeChecked
        = .ok r)
    (hmid : Login.Event.callSettled ∉ mid) :
    ((Login.run s0 events).rememberMeChecked = true →
      getItem (Login.run (Login.run s0 events)
          (.submit :: (mid ++ [.callSettled]))).localStorage
          (js "rememberedEmail") = some (Login.run s0 events).emailInput.value ∧
      ∀ p : Login.LoginPage,
        p.localStorage =
          (Login.run (Login.run s0 events)
            (.submit :: (mid ++ [.callSettled]))).localStorage →
        (Login.step p .domContentLoaded).emailInput.value =
          (Login.run s0 events).emailInput.value ∧
        (Login.step p .domContentLoaded).rememberMeChecked = true) ∧
    ((Login.run s0 events).rememberMeChecked = false →
      getItem (Login.run (Login.run s0 events)
          (.submit :: (mid ++ [.callSettled]))).localStorage
          (js "rememberedEmail") = none ∧
      ∀ p : Login.LoginPage,
        p.localStorage =
          (Login.run (Login.run s0 events)
            (.submit :: (mid ++ [.callSettled]))).localStorage →
        Login.step p .domContentLoaded = p) := by
  have hq := login_run_quiet s0 events (login_initial_quiet s0 h0)
  have hp := hq.1 hs
  generalize Login.run s0 events = s at hs hv hok hp ⊢
  -- the email passed validation, so trimming leaves it as it is
  have hve : Login.validators_email s.emailInput.value = none := by
    have h2 : (validateField s.emailInput Login.validators_email).2 = true := by
      simp only [Login.validateForm, Bool.and_eq_true] at hv
      exact hv.1
    rw [validateField_snd] at h2
    exact truthy_eq_false_of_validator _ (by simpa using h2)
      (login_validators_email_cases _)
  have htrim : jsTrim s.emailInput.value = s.emailInput.value :=
    jsTrim_of_matches _ ((login_validators_email_eq_none_iff _).mp hve)
  rw [htrim] at hok
  obtain ⟨hdemo, hsim⟩ := login_simulateLogin_ok _ _ _ hok
  have hv2 : (validateField s.emailInput Login.validators_email).2 = true ∧
      (validateField s.passwordInput Login.validators_password).2 = true := by
    simpa [Login.validateForm] using hv
  -- the submit handler queues the call with the values it has read
  have hsub : (Login.step s .submit).isSubmitting = true ∧
      (Login.step s .submit).pendingCalls =
        [⟨s.emailInput.value, s.passwordInput.value, s.rememberMeChecked⟩] ∧
      (Login.step s .submit).localStorage = s.localStorage := by
    simp [Login.step, Login.onSubmit, hs, hv2.1, hv2.2, Login.validateForm,
      Login.hideAlerts, validateField_value, htrim, hp]
  -- nothing that happens while the call is pending changes the call or the store
  obtain ⟨_, m2, m3⟩ := login_in_flight_run (Login.step s .submit) mid _ hmid hsub.1 hsub.2.1
  have hst : (Login.run s (.submit :: (mid ++ [.callSettled]))).localStorage =
      if s.rememberMeChecked then
        setItem s.localStorage (js "rememberedEmail") s.emailInput.value
      else removeItem s.localStorage (js "rememberedEmail") := by
    rw [login_run_cons, login_run_append, login_settle_store _ _ _ m2 hsim, m3, hsub.2.2]
  rw [hst]
  constructor
  · intro hr
    simp only [hr, if_true]
    refine ⟨getItem_setItem _ _ _, ?_⟩
    intro p hpst
    have hne : truthy (some s.emailInput.value) = true := by
      rw [hdemo]
      decide
    simp [Login.step, Login.onDOMContentLoaded, hpst, getItem_setItem, hne]
  · intro hr
    simp only [hr]
    refine ⟨getItem_removeItem _ _, ?_⟩
    intro p hpst
    simp [Login.step, Login.onDOMContentLoaded, hpst, getItem_removeItem, truthy]

theorem remember_me_roundtrip_witness :
    getItem (Login.run (Login.run Login.blankPage
        [.emailInput (js "demo@example.com"), .passwordInput (js "password123"),
          .rememberMeClick])
        (.submit :: ([.emailInput (js "other@x.y"), .rememberMeClick] ++ [.callSettled]))
      ).localStorage (js "rememberedEmail") =
      some (Login.run Login.blankPage
        [.emailInput (js "demo@example.com"), .passwordInput (js "password123"),
          .rememberMeClick]).emailInput.value :=
  ((remember_me_roundtrip Login.blankPage
    [.emailInput (js "demo@example.com"), .passwordInput (js "password123"),
      .rememberMeClick]
    [.emailInput (js "other@x.y"), .rememberMeClick]
    (by decide) (by decide) (by decide)
    ⟨{ success := true, userEmail := js "demo@example.com" }, rfl⟩ (by decide)).1
      (by decide)).1

/-! ## A submission that fails validation -/

theorem login_failed_submit (l : Login.LoginPage)
    (hl : l.isSubmitting = false) (hlv : (Login.validateForm l).2 = false) :
    (Login.step l .submit).pendingCalls = l.pendingCalls ∧
      (Login.step l .submit).isSubmitting = false ∧
      (Login.step l .submit).submitBtnDisabled = l.submitBtnDisabled ∧
      (Login.step l .submit).successAlertShown = false ∧
      (Login.step l .submit).errorAlertShown = false := by
  have hlv2 : (Login.validateForm (Login.hideAlerts l)).2 = false := by
    simpa [Login.validateForm, Login.hideAlerts] using hlv
  simp only [Login.step, Login.onSubmit, hl, hlv2]
  simp [Login.validateForm, Login.hideAlerts, hl]

theorem reset_failed_submit (r : Reset.ResetPage)
    (hr : r.isSubmitting = false) (hrv : (Reset.validateForm r).2 = false) :
    (Reset.step r .submit).pendingCalls = r.pendingCalls ∧
      (Reset.step r .submit).isSubmitting = false ∧
      (Reset.step r .submit).submitBtnDisabled = r.submitBtnDisabled ∧
      (Reset.step r .submit).successAlertShown = false ∧
      (Reset.step r .submit).errorAlertShown = false := by
  have hrv2 :
      (Reset.validateForm { Reset.hideAlerts r with infoBoxShown := false }).2 = false := by
    simpa [Reset.validateForm, Reset.hideAlerts] using hrv
  simp only [Reset.step, Reset.onSubmit, hr, hrv2]
  simp [Reset.validateForm, Reset.hideAlerts, hr]

/-- C7 as stated fails: a visible alert does not stay. On the login page the
error alert raised by the Google button is gone after a submit that fails
validation; on the reset page the success alert of a finished reset is gone
after one. -/
theorem failed_validation_changes_alerts :
    ((Login.run Login.blankPage [.googleClick]).isSubmitting = false ∧
      (Login.validateForm (Login.run Login.blankPage [.googleClick])).2 = false ∧
      (Login.run Login.blankPage [.googleClick]).errorAlertShown = true ∧
      (Login.step (Login.run Login.blankPage [.googleClick]) .submit).errorAlertShown
        = false) ∧
    ((Reset.run Reset.blankPage
        [.emailInput (js "a@b.c"), .submit, .callSettled, .cooldownTimer]).isSubmitting
        = false ∧
      (Reset.validateForm (Reset.run Reset.blankPage
        [.emailInput (js "a@b.c"), .submit, .callSettled, .cooldownTimer])).2 = false ∧
      (Reset.run Reset.blankPage
        [.emailInput (js "a@b.c"), .submit, .callSettled, .cooldownTimer]).successAlertShown
        = true ∧
      (Reset.step (Reset.run Reset.blankPage
        [.emailInput (js "a@b.c"), .submit, .callSettled, .cooldownTimer])
        .submit).successAlertShown = false) := by
  decide

/-! ## The submit control follows `isSubmitting` -/

theorem login_afterAwait_disabled (s : Login.LoginPage) (call : Login.LoginCall)
    (r : Except JSString Login.LoginResponse) (h : s.submitBtnDisabled = s.isSubmitting) :
    (Login.afterAwait call r s).submitBtnDisabled = (Login.afterAwait call r s).isSubmitting := by
  cases r <;> simp only [Login.afterAwait, Login.showAlert, Login.hideAlerts]
  all_goals (try split_ifs) <;> simp_all

theorem login_step_disabled (s : Login.LoginPage) (e : Login.Event)
    (h : s.submitBtnDisabled = s.isSubmitting) :
    (Login.step s e).submitBtnDisabled = (Login.step s e).isSubmitting := by
  cases e
  case callSettled =>
    simp only [Login.step, Login.onCallSettled]
    split
    · exact h
    · exact login_afterAwait_disabled _ _ _ h
  all_goals
    simp only [Login.step, Login.onEmailInput, Login.onPasswordInput, Login.onEmailBlur,
      Login.onPasswordBlur, Login.onTogglePassword, Login.onRedirectTimer,
      Login.onDOMContentLoaded, Login.onGoogleClick, Login.onGithubClick, Login.onForgotClick,
      Login.onSignupClick, Login.onSubmit, Login.validateForm, Login.showAlert,
      Login.hideAlerts]
    (try split_ifs) <;> simp_all

theorem login_run_disabled (s : Login.LoginPage) (events : List Login.Event)
    (h : s.submitBtnDisabled = s.isSubmitting) :
    (Login.run s events).submitBtnDisabled = (Login.run s events).isSubmitting := by
  induction events generalizing s with
  | nil => exact h
  | cons e es ih => exact ih _ (login_step_disabled s e h)

theorem reset_afterAwait_disabled (s : Reset.ResetPage) (r : Except JSString Reset.ResetResponse)
    (h : s.submitBtnDisabled = s.isSubmitting) :
    (Reset.afterAwait r s).submitBtnDisabled = (Reset.afterAwait r s).isSubmitting := by
  cases r <;> simp only [Reset.afterAwait, Reset.showAlert, Reset.hideAlerts]
  all_goals (try split_ifs) <;> simp_all

theorem reset_step_disabled (s : Reset.ResetPage) (e : Reset.Event)
    (h : s.submitBtnDisabled = s.isSubmitting) :
    (Reset.step s e).submitBtnDisabled = (Reset.step s e).isSubmitting := by
  cases e
  case callSettled =>
    simp only [Reset.step, Reset.onCallSettled]
    split
    · exact h
    · exact reset_afterAwait_disabled _ _ h
  all_goals
    simp only [Reset.step, Reset.onEmailInput, Reset.onEmailBlur, Reset.onBackToLoginClick,
      Reset.onSubmit, Reset.onCooldownTimer, Reset.validateForm, Reset.hideAlerts]
    (try split_ifs) <;> simp_all

theorem reset_run_disabled (s : Reset.ResetPage) (events : List Reset.Event)
    (h : s.submitBtnDisabled = s.isSubmitting) :
    (Reset.run s events).submitBtnDisabled = (Reset.run s events).isSubmitting := by
  induction events generalizing s with
  | nil => exact h
  | cons e es ih => exact ih _ (reset_step_disabled s e h)

/-- C8: on both pages, after any sequence of events from a state in which
`isSubmitting` is false and the submit control is enabled, the submit control
is disabled exactly when `isSubmitting` is true. The same holds after the
`catch` branch of the reset page, which the simulated call never takes. -/
theorem submit_disabled_iff_submitting (l0 : Login.LoginPage) (levents : List Login.Event)
    (r0 : Reset.ResetPage) (revents : List Reset.Event)
    (hl : l0.isSubmitting = false) (hlb : l0.submitBtnDisabled = false)
    (hr : r0.isSubmitting = false) (hrb : r0.submitBtnDisabled = false) :
    ((Login.run l0 levents).submitBtnDisabled = true ↔
      (Login.run l0 levents).isSubmitting = true) ∧
    ((Reset.run r0 revents).submitBtnDisabled = true ↔
      (Reset.run r0 revents).isSubmitting = true) ∧
    (∀ message,
      (Reset.afterAwait (.error message) (Reset.run r0 revents)).submitBtnDisabled = true ↔
        (Reset.afterAwait (.error message) (Reset.run r0 revents)).isSubmitting = true) := by
  have h1 := login_run_disabled l0 levents (by rw [hl, hlb])
  have h2 := reset_run_disabled r0 revents (by rw [hr, hrb])
  refine ⟨by rw [h1], by rw [h2], fun m => ?_⟩
  rw [reset_afterAwait_disabled _ _ h2]

theorem submit_disabled_iff_submitting_witness :
    ((Login.run Login.blankPage
        [.emailInput (js "demo@example.com"), .passwordInput (js "wrong-password"), .submit,
          .callSettled]).submitBtnDisabled = true ↔
      (Login.run Login.blankPage
        [.emailInput (js "demo@example.com"), .passwordInput (js "wrong-password"), .submit,
          .callSettled]).isSubmitting = true) ∧
    ((Reset.run Reset.blankPage
        [.emailInput (js "a@b.c"), .submit, .callSettled]).submitBtnDisabled = true ↔
      (Reset.run Reset.blankPage
        [.emailInput (js "a@b.c"), .submit, .callSettled]).isSubmitting = true) :=
  have h := submit_disabled_iff_submitting Login.blankPage
    [.emailInput (js "demo@example.com"), .passwordInput (js "wrong-password"), .submit,
      .callSettled]
    Reset.blankPage [.emailInput (js "a@b.c"), .submit, .callSettled]
    (by decide) (by decide) (by decide) (by decide)
  ⟨h.1, h.2.1⟩

/-! ## A submission that fails validation, in a reachable state -/

/-- C7, as the code has it: on both pages, after any sequence of events from a
state in which `isSubmitting` is false and the submit control is enabled, if
`isSubmitting` is false and `validateForm()` fails, then a submit event queues
no remote call, leaves `isSubmitting` false and the submit control enabled, and
hides both the success and the error alert. -/
theorem failed_validation_submit (l0 : Login.LoginPage) (levents : List Login.Event)
    (r0 : Reset.ResetPage) (revents : List Reset.Event)
    (hl0 : l0.isSubmitting = false) (hlb : l0.submitBtnDisabled = false)
    (hr0 : r0.isSubmitting = false) (hrb : r0.submitBtnDisabled = false)
    (hl : (Login.run l0 levents).isSubmitting = false)
    (hlv : (Login.validateForm (Login.run l0 levents)).2 = false)
    (hr : (Reset.run r0 revents).isSubmitting = false)
    (hrv : (Reset.validateForm (Reset.run r0 revents)).2 = false) :
    ((Login.step (Login.run l0 levents) .submit).pendingCalls
        = (Login.run l0 levents).pendingCalls ∧
      (Login.step (Login.run l0 levents) .submit).isSubmitting = false ∧
      (Login.step (Login.run l0 levents) .submit).submitBtnDisabled = false ∧
      (Login.step (Login.run l0 levents) .submit).successAlertShown = false ∧
      (Login.step (Login.run l0 levents) .submit).errorAlertShown = false) ∧
    ((Reset.step (Reset.run r0 revents) .submit).pendingCalls
        = (Reset.run r0 revents).pendingCalls ∧
      (Reset.step (Reset.run r0 revents) .submit).isSubmitting = false ∧
      (Reset.step (Reset.run r0 revents) .submit).submitBtnDisabled = false ∧
      (Reset.step (Reset.run r0 revents) .submit).successAlertShown = false ∧
      (Reset.step (Reset.run r0 revents) .submit).errorAlertShown = false) := by
  have dl := login_run_disabled l0 levents (by rw [hl0, hlb])
  have dr := reset_run_disabled r0 revents (by rw [hr0, hrb])
  obtain ⟨a1, a2, a3, a4, a5⟩ := login_failed_submit _ hl hlv
  obtain ⟨b1, b2, b3, b4, b5⟩ := reset_failed_submit _ hr hrv
  exact ⟨⟨a1, a2, by rw [a3, dl, hl], a4, a5⟩, ⟨b1, b2, by rw [b3, dr, hr], b4, b5⟩⟩

theorem failed_validation_submit_witness :
    ((Login.step (Login.run Login.blankPage
        [.emailInput (js "demo@example.com"), .passwordInput (js "wrong-password"), .submit,
          .callSettled, .passwordInput (js "short")]) .submit).submitBtnDisabled = false ∧
      (Login.step (Login.run Login.blankPage
        [.emailInput (js "demo@example.com"), .passwordInput (js "wrong-password"), .submit,
          .callSettled, .passwordInput (js "short")]) .submit).errorAlertShown = false) ∧
    (Reset.step (Reset.run Reset.blankPage
        [.emailInput (js "a@b.c"), .submit, .callSettled, .cooldownTimer])
      .submit).submitBtnDisabled = false :=
  have h := failed_validation_submit Login.blankPage
    [.emailInput (js "demo@example.com"), .passwordInput (js "wrong-password"), .submit,
      .callSettled, .passwordInput (js "short")]
    Reset.blankPage [.emailInput (js "a@b.c"), .submit, .callSettled, .cooldownTimer]
    (by decide) (by decide) (by decide) (by decide)
    (by decide) (by decide) (by decide) (by decide)
  ⟨⟨h.1.2.2.1, h.1.2.2.2.2⟩, h.2.2.2.1⟩

/-! ## Error markers -/

theorem validateField_consistent (f : Field) (v : JSString → Option JSString) :
    (validateField f v).1.Consistent := by
  unfold validateField Field.Consistent
  cases h : truthy (v f.value) <;> simp [h, showError, clearError, Field.lastRunFailed]

theorem consistent_of_value (f : Field) (v : JSString) (h : f.Consistent) :
    Field.Consistent { f with value := v } := h

theorem consistent_after_input (f : Field) :
    Field.Consistent
      (if f.noteCleared.invalid = true then clearError f.noteCleared else f.noteCleared) := by
  unfold Field.Consistent
  cases h : f.invalid <;> simp [h, Field.noteCleared, clearError]

theorem freshField_consistent (f : Field) (h : freshField f = true) : f.Consistent := by
  simp [freshField] at h
  simp [Field.Consistent, Field.lastRunFailed, h]

theorem login_afterAwait_fields (s : Login.LoginPage) (call : Login.LoginCall)
    (r : Except JSString Login.LoginResponse) :
    (Login.afterAwait call r s).emailInput = s.emailInput ∧
      (Login.afterAwait call r s).passwordInput = s.passwordInput := by
  cases r <;> simp only [Login.afterAwait, Login.showAlert, Login.hideAlerts] <;>
    (try split_ifs) <;> simp

theorem login_step_consistent (s : Login.LoginPage) (e : Login.Event)
    (h : s.emailInput.Consistent ∧ s.passwordInput.Consistent) :
    (Login.step s e).emailInput.Consistent ∧ (Login.step s e).passwordInput.Consistent := by
  obtain ⟨he, hpw⟩ := h
  cases e
  case emailInput v =>
    simp only [Login.step, Login.onEmailInput, Login.hideAlerts]
    refine ⟨?_, ?_⟩
    · have := consistent_after_input { s.emailInput with value := v }
      split_ifs at this ⊢ <;> simpa using this
    · split_ifs <;> exact hpw
  case passwordInput v =>
    simp only [Login.step, Login.onPasswordInput, Login.hideAlerts]
    refine ⟨?_, ?_⟩
    · split_ifs <;> exact he
    · have := consistent_after_input { s.passwordInput with value := v }
      split_ifs at this ⊢ <;> simpa using this
  case emailBlur =>
    simp only [Login.step, Login.onEmailBlur]
    split_ifs
    · exact ⟨validateField_consistent _ _, hpw⟩
    · exact ⟨he, hpw⟩
  case passwordBlur =>
    simp only [Login.step, Login.onPasswordBlur]
    split_ifs
    · exact ⟨he, validateField_consistent _ _⟩
    · exact ⟨he, hpw⟩
  case submit =>
    simp only [Login.step, Login.onSubmit, Login.validateForm, Login.hideAlerts]
    split_ifs
    · exact ⟨he, hpw⟩
    · exact ⟨validateField_consistent _ _, validateField_consistent _ _⟩
    · exact ⟨validateField_consistent _ _, validateField_consistent _ _⟩
  case callSettled =>
    simp only [Login.step, Login.onCallSettled]
    split
    · exact ⟨he, hpw⟩
    · rw [(login_afterAwait_fields _ _ _).1, (login_afterAwait_fields _ _ _).2]
      exact ⟨he, hpw⟩
  case domContentLoaded =>
    simp only [Login.step, Login.onDOMContentLoaded]
    split_ifs
    · exact ⟨he, hpw⟩
    · exact ⟨he, hpw⟩
  all_goals
    simp only [Login.step, Login.onTogglePassword, Login.onRedirectTimer, Login.onGoogleClick,
      Login.onGithubClick, Login.onForgotClick, Login.onSignupClick, Login.showAlert,
      Login.hideAlerts]
    exact ⟨he, hpw⟩

theorem login_run_consistent (s : Login.LoginPage) (events : List Login.Event)
    (h : s.emailInput.Consistent ∧ s.passwordInput.Consistent) :
    (Login.run s events).emailInput.Consistent ∧
      (Login.run s events).passwordInput.Consistent := by
  induction events generalizing s with
  | nil => exact h
  | cons e es ih => exact ih _ (login_step_consistent s e h)

theorem reset_step_consistent (s : Reset.ResetPage) (e : Reset.Event)
    (h : s.emailInput.Consistent) : (Reset.step s e).emailInput.Consistent := by
  cases e
  case emailInput v =>
    simp only [Reset.step, Reset.onEmailInput, Reset.hideAlerts]
    have := consistent_after_input { s.emailInput with value := v }
    split_ifs at this ⊢ <;> simpa using this
  case emailBlur =>
    simp only [Reset.step, Reset.onEmailBlur]
    split_ifs
    · exact validateField_consistent _ _
    · exact h
  case submit =>
    simp only [Reset.step, Reset.onSubmit, Reset.validateForm, Reset.hideAlerts]
    split_ifs
    · exact h
    · exact validateField_consistent _ _
    · exact validateField_consistent _ _
  case callSettled =>
    simp only [Reset.step, Reset.onCallSettled]
    split
    · exact h
    · simp [Reset.afterAwait, Reset.simulatePasswordReset, Reset.showAlert, Reset.hideAlerts,
        js, Field.Consistent, clearError, Field.noteCleared]
  case cooldownTimer =>
    simp only [Reset.step, Reset.onCooldownTimer]
    split_ifs <;> exact h
  case backToLoginClick => exact h

theorem reset_run_consistent (s : Reset.ResetPage) (events : List Reset.Event)
    (h : s.emailInput.Consistent) : (Reset.run s events).emailInput.Consistent := by
  induction events generalizing s with
  | nil => exact h
  | cons e es ih => exact ih _ (reset_step_consistent s e h)

theorem consistent_iff (f : Field) (h : f.Consistent) :
    f.invalid = true ↔ (f.lastRunFailed = true ∧ f.clearedSince = false) := by
  unfold Field.Consistent at h
  rw [h]
  cases f.lastRunFailed <;> cases f.clearedSince <;> simp

/-- C9, as the code has it: on both pages, after any sequence of events from
an initial state, a field shows the error marker exactly when the last
validator run on it returned a non-empty message and, since that run, no input
event on the field and no completed reset has gone by. -/
theorem marker_iff_failed_and_not_cleared (l0 : Login.LoginPage)
    (levents : List Login.Event) (r0 : Reset.ResetPage) (revents : List Reset.Event)
    (hl : Login.initial l0 = true) (hr : Reset.initial r0 = true) :
    ((Login.run l0 levents).emailInput.invalid = true ↔
      ((Login.run l0 levents).emailInput.lastRunFailed = true ∧
        (Login.run l0 levents).emailInput.clearedSince = false)) ∧
    ((Login.run l0 levents).passwordInput.invalid = true ↔
      ((Login.run l0 levents).passwordInput.lastRunFailed = true ∧
        (Login.run l0 levents).passwordInput.clearedSince = false)) ∧
    ((Reset.run r0 revents).emailInput.invalid = true ↔
      ((Reset.run r0 revents).emailInput.lastRunFailed = true ∧
        (Reset.run r0 revents).emailInput.clearedSince = false)) := by
  simp only [Login.initial, Reset.initial, Bool.and_eq_true] at hl hr
  have h1 := login_run_consistent l0 levents
    ⟨freshField_consistent _ hl.1.2, freshField_consistent _ hl.2⟩
  have h2 := reset_run_consistent r0 revents (freshField_consistent _ hr.2)
  exact ⟨consistent_iff _ h1.1, consistent_iff _ h1.2, consistent_iff _ h2⟩

theorem marker_iff_failed_and_not_cleared_witness :
    ((Login.run Login.blankPage [.emailInput (js "abc"), .emailBlur]).emailInput.invalid
        = true ↔
      ((Login.run Login.blankPage
          [.emailInput (js "abc"), .emailBlur]).emailInput.lastRunFailed = true ∧
        (Login.run Login.blankPage
          [.emailInput (js "abc"), .emailBlur]).emailInput.clearedSince = false)) ∧
    (Login.run Login.blankPage [.emailInput (js "abc"), .emailBlur]).emailInput.invalid
      = true :=
  ⟨(marker_iff_failed_and_not_cleared Login.blankPage [.emailInput (js "abc"), .emailBlur]
    Reset.blankPage [] (by decide) (by decide)).1, by decide⟩

/-- C9 as stated fails. On the login page, typing after a failed blur removes
the marker although the last validator run failed. On the reset page, a blur
that fails while the call is pending is followed by the completed reset, which
removes the marker although the last validator run failed. -/
theorem marker_cleared_without_validation :
    ((Login.run Login.blankPage
        [.emailInput (js "abc"), .emailBlur, .emailInput (js "abcd")]).emailInput.lastRunFailed
        = true ∧
      (Login.run Login.blankPage
        [.emailInput (js "abc"), .emailBlur, .emailInput (js "abcd")]).emailInput.invalid
        = false) ∧
    ((Reset.run Reset.blankPage
        [.emailInput (js "a@b.c"), .submit, .emailInput (js "x"), .emailBlur,
          .callSettled]).emailInput.lastRunFailed = true ∧
      (Reset.run Reset.blankPage
        [.emailInput (js "a@b.c"), .submit, .emailInput (js "x"), .emailBlur,
          .callSettled]).emailInput.invalid = false) := by
  decide

/-! ## Alerts -/

/-- C10, where the login page falls short: for every prior state of the page,
the call `showAlert('success', 'Login successful! Redirecting...')` that the
submit handler makes leaves the success alert the only visible one, as the
claim says, but writes the message nowhere: the text of the success alert is
what it was before the call. The error branch of the same function shows its
message, and `showAlert` of the reset page shows the message for both kinds.
On the blank page, a login with the demo credentials ends with the success
alert visible and its text not the message. -/
theorem login_success_alert_drops_message (l : Login.LoginPage) (r : Reset.ResetPage)
    (message : JSString) :
    ((Login.showAlert (js "success") (js "Login successful! Redirecting...")
        l).successAlertShown = true ∧
      (Login.showAlert (js "success") (js "Login successful! Redirecting...")
        l).errorAlertShown = false ∧
      (Login.showAlert (js "success") (js "Login successful! Redirecting...")
        l).successAlertText = l.successAlertText) ∧
    ((Login.showAlert (js "error") message l).errorAlertShown = true ∧
      (Login.showAlert (js "error") message l).successAlertShown = false ∧
      (Login.showAlert (js "error") message l).errorAlertText = message) ∧
    ((Reset.showAlert (js "success") message r).successAlertShown = true ∧
      (Reset.showAlert (js "success") message r).errorAlertShown = false ∧
      (Reset.showAlert (js "success") message r).successAlertText = message) ∧
    ((Reset.showAlert (js "error") message r).errorAlertShown = true ∧
      (Reset.showAlert (js "error") message r).successAlertShown = false ∧
      (Reset.showAlert (js "error") message r).errorAlertText = message) ∧
    ((Login.run Login.blankPage
        [.emailInput (js "demo@example.com"), .passwordInput (js "password123"), .submit,
          .callSettled]).successAlertShown = true ∧
      (Login.run Login.blankPage
        [.emailInput (js "demo@example.com"), .passwordInput (js "password123"), .submit,
          .callSettled]).successAlertText ≠ js "Login successful! Redirecting...") := by
  have hne : js "error" ≠ js "success" := by decide
  refine ⟨?_, ?_, ?_, ?_, by decide⟩
  · simp [Login.showAlert, Login.hideAlerts]
  · simp [Login.showAlert, Login.hideAlerts, hne]
  · simp [Reset.showAlert, Reset.hideAlerts]
  · simp [Reset.showAlert, Reset.hideAlerts, hne]

end Tut23
